import Mathlib

/-!
Shallow embedding of the `alma-auto-document-populizer` pipeline.

The embedding covers, translated from the repository's source:
 * Python string helpers used by the code (`str.strip`, `str.lower`,
   substring containment `in`, slicing) — modelled over Lean `String`,
   whose characters are Unicode scalar values.  Case mapping is modelled
   for ASCII letters, which covers every error text the code classifies.
 * `datetime.strptime(_, "%Y-%m-%d")` and `str(date)` (ISO rendering).
 * CPython's `json.loads` (the default C scanner of Python 3.11),
   including its `JSONDecodeError` messages and positions.
 * `src/extractors/combined_extraction.py` (`extract_data`): fence
   stripping, JSON parsing, date coercion, pydantic-style record
   validation and the string-pattern error classification.
 * `src/utils/data_mapper.py` (`map_to_form_fields`, `get_checkbox_fields`).
 * the direct-text acceptance threshold of `src/utils/ocr_handler.py`.
 * `src/automation/form_filler.py` (`populate_form`, `_fill_page`),
   with the browser abstracted as an outcome environment.
-/

namespace Alma

/-- Python `str.lower` restricted to ASCII letters; the error texts the
code classifies are ASCII. -/
def pyLower (s : String) : String :=
  String.mk (s.toList.map Char.toLower)

/-- Does `hay` start with `needle` (character lists)? -/
def listStartsWith : List Char → List Char → Bool
  | _, [] => true
  | [], _ :: _ => false
  | a :: as, b :: bs => a = b && listStartsWith as bs

/-- Does `hay` contain `needle` as a contiguous sublist? -/
def listHasSub : List Char → List Char → Bool
  | [], needle => needle.isEmpty
  | h :: t, needle => listStartsWith (h :: t) needle || listHasSub t needle

/-- Python `needle in hay` on strings (substring containment). -/
def pyIn (needle hay : String) : Bool :=
  listHasSub hay.toList needle.toList

/-- Characters stripped by Python `str.strip()` with no argument
(Unicode whitespace per `Py_UNICODE_ISSPACE`). -/
def pyIsSpace (c : Char) : Bool :=
  let n := c.toNat
  n = 32 || (9 ≤ n && n ≤ 13) || (28 ≤ n && n ≤ 31) || n = 0x85 || n = 0xa0 ||
    n = 0x1680 || (0x2000 ≤ n && n ≤ 0x200a) || n = 0x2028 || n = 0x2029 ||
    n = 0x202f || n = 0x205f || n = 0x3000

/-- Python `s.strip()`. -/
def pyStrip (s : String) : String :=
  String.mk (((s.toList.dropWhile pyIsSpace).reverse.dropWhile pyIsSpace).reverse)

/-- Python `s[:n]` (slice of the first `n` characters). -/
def pySliceTo (s : String) (n : Nat) : String :=
  String.mk (s.toList.take n)

/-- Value of an ASCII decimal digit. -/
def digitVal (c : Char) : Nat := c.toNat - 48

/-- Python `datetime.date`: a plain calendar date. -/
structure PyDate where
  year : Nat
  month : Nat
  day : Nat
deriving DecidableEq, Repr

/-- Gregorian leap-year rule used by `datetime`. -/
def isLeapYear (y : Nat) : Bool :=
  y % 4 = 0 && (y % 100 ≠ 0 || y % 400 = 0)

/-- Days in a month of a given year, as `datetime` enforces. -/
def daysInMonth (y m : Nat) : Nat :=
  if m = 2 then (if isLeapYear y then 29 else 28)
  else if m = 4 || m = 6 || m = 9 || m = 11 then 30
  else 31

/-- Month alternatives of strptime's `%m` regex `(1[0-2]|0[1-9]|[1-9])`,
in regex order, each with the remaining input. -/
def monthSyntax : List Char → List (Nat × List Char)
  | c1 :: c2 :: r =>
    (if c1 = '1' && (c2 = '0' || c2 = '1' || c2 = '2')
      then [(10 + digitVal c2, r)] else []) ++
    (if c1 = '0' && ('1' ≤ c2 && c2 ≤ '9') then [(digitVal c2, r)] else []) ++
    (if '1' ≤ c1 && c1 ≤ '9' then [(digitVal c1, c2 :: r)] else [])
  | [c1] => if '1' ≤ c1 && c1 ≤ '9' then [(digitVal c1, [])] else []
  | [] => []

/-- Day alternatives of strptime's `%d` regex `(3[01]|[12]\d|0[1-9]|[1-9])`,
which must consume the whole remaining input (strptime rejects
unconverted trailing data). -/
def dayEndSyntax : List Char → Option Nat
  | [c1, c2] =>
    if c1 = '3' && (c2 = '0' || c2 = '1') then some (30 + digitVal c2)
    else if (c1 = '1' || c1 = '2') && c2.isDigit then
      some (10 * digitVal c1 + digitVal c2)
    else if c1 = '0' && ('1' ≤ c2 && c2 ≤ '9') then some (digitVal c2)
    else none
  | [c1] => if '1' ≤ c1 && c1 ≤ '9' then some (digitVal c1) else none
  | _ => none

/-- Python `datetime.strptime(s, "%Y-%m-%d").date()`, returning `none`
where Python raises `ValueError` (format mismatch, trailing data, or an
impossible calendar date such as year 0 or Feb 30).  `%Y` is exactly four
ASCII digits; `%m`/`%d` accept unpadded single digits, as CPython's
`_strptime` regexes do.  Digits are modelled as ASCII. -/
def pyStrptimeYMD (s : String) : Option PyDate :=
  match s.toList with
  | y1 :: y2 :: y3 :: y4 :: '-' :: rest =>
    if y1.isDigit && y2.isDigit && y3.isDigit && y4.isDigit then
      let y := digitVal y1 * 1000 + digitVal y2 * 100 + digitVal y3 * 10 + digitVal y4
      let parses := (monthSyntax rest).filterMap (fun mr =>
        match mr.2 with
        | '-' :: dcs => (dayEndSyntax dcs).map (fun d => (mr.1, d))
        | _ => none)
      match parses.head? with
      | some (m, d) =>
        if 1 ≤ y && d ≤ daysInMonth y m then some ⟨y, m, d⟩ else none
      | none => none
    else none
  | _ => none

/-- Left-pad a numeral with zeros to a given width. -/
def padZ (w n : Nat) : String :=
  let s := toString n
  if s.length < w then String.mk (List.replicate (w - s.length) '0') ++ s else s

/-- Python `str(date)`: ISO calendar form `YYYY-MM-DD`, zero padded. -/
def pyDateStr (d : PyDate) : String :=
  padZ 4 d.year ++ "-" ++ padZ 2 d.month ++ "-" ++ padZ 2 d.day

/-- `models/passport_data.py`: `PassportData`, all fields optional. -/
structure PassportData where
  surname : Option String := none
  given_names : Option String := none
  middle_names : Option String := none
  passport_number : Option String := none
  country_of_issue : Option String := none
  nationality : Option String := none
  date_of_birth : Option PyDate := none
  place_of_birth : Option String := none
  sex : Option String := none
  issue_date : Option PyDate := none
  expiry_date : Option PyDate := none
deriving DecidableEq, Repr

/-- `models/g28_data.py`: `AttorneyInfo`. -/
structure AttorneyInfo where
  first_name : Option String := none
  middle_name : Option String := none
  last_name : Option String := none
  street : Option String := none
  city : Option String := none
  state : Option String := none
  zip : Option String := none
  country : Option String := none
  phone : Option String := none
  email : Option String := none
  fax : Option String := none
  online_account : Option String := none
deriving DecidableEq, Repr

/-- `models/g28_data.py`: `EligibilityInfo`. -/
structure EligibilityInfo where
  licensing_authority : Option String := none
  bar_number : Option String := none
  law_firm : Option String := none
  is_not_subject_to_orders : Option Bool := none
deriving DecidableEq, Repr

/-- `models/g28_data.py`: `ClientInfo`. -/
structure ClientInfo where
  first_name : Option String := none
  middle_name : Option String := none
  last_name : Option String := none
  street : Option String := none
  city : Option String := none
  state : Option String := none
  zip : Option String := none
  country : Option String := none
  phone : Option String := none
  email : Option String := none
  a_number : Option String := none
deriving DecidableEq, Repr

/-- `models/g28_data.py`: `G28Data`, three optional groups. -/
structure G28Data where
  attorney : Option AttorneyInfo := none
  eligibility : Option EligibilityInfo := none
  client : Option ClientInfo := none
deriving DecidableEq, Repr

/-- The all-null passport record. -/
def PassportData.empty : PassportData := {}

/-- The all-null G-28 record. -/
def G28Data.empty : G28Data := {}

/-- `data_mapper.get_value`: value or empty string if `None`. -/
def get_value : Option String → String
  | some v => v
  | none => ""

/-- `data_mapper.format_date`: formats as `MM/DD/YYYY` (defined in the
source but never called — the date fields below use `str(date)`). -/
def format_date : Option PyDate → String
  | some d => padZ 2 d.month ++ "/" ++ padZ 2 d.day ++ "/" ++ padZ 4 d.year
  | none => ""

/-- Rendering of the three date fields in `map_to_form_fields`:
`str(x) if x else ""`. -/
def dateFieldStr : Option PyDate → String
  | some d => pyDateStr d
  | none => ""

/-- `data_mapper.map_to_form_fields`, as an insertion-ordered map with
distinct keys (a Python dict). -/
def map_to_form_fields (passport_data : PassportData) (g28_data : G28Data) :
    List (String × String) :=
  let passportFields : List (String × String) :=
    [("passport-surname", get_value passport_data.surname),
     ("passport-given-names", get_value passport_data.given_names),
     ("passport-middle-name", get_value passport_data.middle_names),
     ("passport-number", get_value passport_data.passport_number),
     ("passport-country", get_value passport_data.country_of_issue),
     ("passport-nationality", get_value passport_data.nationality),
     ("passport-dob", dateFieldStr passport_data.date_of_birth),
     ("passport-pob", get_value passport_data.place_of_birth),
     ("passport-sex", get_value passport_data.sex),
     ("passport-issue-date", dateFieldStr passport_data.issue_date),
     ("passport-expiry-date", dateFieldStr passport_data.expiry_date)]
  let attorneyFields : List (String × String) :=
    match g28_data.attorney with
    | some a =>
      [("online-account", get_value a.online_account),
       ("family-name", get_value a.last_name),
       ("given-name", get_value a.first_name),
       ("middle-name", get_value a.middle_name),
       ("street-number", get_value a.street),
       ("city", get_value a.city),
       ("state", get_value a.state),
       ("zip", get_value a.zip),
       ("country", get_value a.country),
       ("daytime-phone", get_value a.phone),
       ("email", get_value a.email)]
    | none => []
  let eligibilityFields : List (String × String) :=
    match g28_data.eligibility with
    | some e =>
      [("licensing-authority", get_value e.licensing_authority),
       ("bar-number", get_value e.bar_number),
       ("law-firm", get_value e.law_firm)]
    | none => []
  passportFields ++ attorneyFields ++ eligibilityFields

/-- `data_mapper.get_checkbox_fields`. -/
def get_checkbox_fields (g28_data : G28Data) : List (String × Bool) :=
  match g28_data.eligibility with
  | some e =>
    match e.is_not_subject_to_orders with
    | some b => [("not-subject", b)]
    | none => []
  | none => []

/-- Lookup in an insertion-ordered string map (Python `d[k]` presence). -/
def lookupField (m : List (String × String)) (k : String) : Option String :=
  (m.find? (fun p => p.1 == k)).map (fun p => p.2)

/-- A JSON number as `json.loads` produces it: an `int` for pure integer
literals, a decimal literal (kept symbolically) for fractional or
exponent forms, and the `NaN` / `Infinity` constants the parser accepts. -/
inductive JNum where
  | int (n : Int)
  | dec (ipart : Int) (frac : List Char) (expo : Int)
  | nan
  | inf (neg : Bool)

/-- A parsed Python JSON value.  Objects are insertion-ordered dicts with
distinct keys (duplicate source keys collapse, last value wins). -/
inductive Json where
  | null
  | bool (b : Bool)
  | str (s : String)
  | num (n : JNum)
  | arr (xs : List Json)
  | obj (kvs : List (String × Json))

/-- Python dict insertion: update in place if the key exists (keeping its
position), else append. -/
def dictInsert (kvs : List (String × Json)) (k : String) (v : Json) :
    List (String × Json) :=
  match kvs with
  | [] => [(k, v)]
  | (k0, v0) :: t => if k0 == k then (k0, v) :: t else (k0, v0) :: dictInsert t k v

/-- Python `d.get(k)` on a dict. -/
def dictGet (kvs : List (String × Json)) (k : String) : Option Json :=
  (kvs.find? (fun p => p.1 == k)).map (fun p => p.2)

/-- A `json.JSONDecodeError`: message template and absolute position. -/
structure JsonErr where
  msg : String
  pos : Nat
deriving DecidableEq, Repr

/-- Index of the last occurrence of `c` in `pre` (Python `str.rfind`,
with `none` for `-1`). -/
def lastIdxOf (pre : List Char) (c : Char) : Option Nat :=
  (List.range pre.length).foldl
    (fun acc i => if pre.get? i = some c then some i else acc) none

/-- Python `str(json.JSONDecodeError)`: appends line, column and char
position, computed exactly as `JSONDecodeError.__init__` does
(`lineno = doc.count('\n', 0, pos) + 1`,
`colno = pos - doc.rfind('\n', 0, pos)`). -/
def jsonErrStr (doc : List Char) (e : JsonErr) : String :=
  let pre := doc.take e.pos
  let line := pre.count '\n' + 1
  let col :=
    match lastIdxOf pre '\n' with
    | none => e.pos + 1
    | some idx => e.pos - idx
  e.msg ++ ": line " ++ toString line ++ " column " ++ toString col ++
    " (char " ++ toString e.pos ++ ")"

/-- The whitespace the JSON scanner skips (`' '`, `'\t'`, `'\n'`, `'\r'`). -/
def isJsonWs (c : Char) : Bool :=
  c = ' ' || c = '\t' || c = '\n' || c = '\r'

/-- Index after skipping JSON whitespace from `i`. -/
def skipWs (doc : List Char) (i : Nat) : Nat :=
  i + ((doc.drop i).takeWhile isJsonWs).length

/-- Character of `doc` at index `i`. -/
def charAt (doc : List Char) (i : Nat) : Option Char :=
  doc.get? i

/-- Python `s[i:i+len(lit)] == lit`. -/
def subEq (doc : List Char) (i : Nat) (lit : List Char) : Bool :=
  listStartsWith (doc.drop i) lit

/-- The `BACKSLASH` table of `json.decoder`. -/
def escChar : Char → Option Char
  | '"' => some '"'
  | '\\' => some '\\'
  | '/' => some '/'
  | 'b' => some (Char.ofNat 8)
  | 'f' => some (Char.ofNat 12)
  | 'n' => some '\n'
  | 'r' => some '\r'
  | 't' => some '\t'
  | _ => none

/-- Is `c` an ASCII hexadecimal digit? -/
def isHexChar (c : Char) : Bool :=
  c.isDigit || ('a' ≤ c && c ≤ 'f') || ('A' ≤ c && c ≤ 'F')

/-- Exactly four hex digits starting at `i`. -/
def hex4 (doc : List Char) (i : Nat) : Option Nat :=
  match charAt doc i, charAt doc (i+1), charAt doc (i+2), charAt doc (i+3) with
  | some a, some b, some c, some d =>
    if isHexChar a && isHexChar b && isHexChar c && isHexChar d then
      some (hexVal a * 4096 + hexVal b * 256 + hexVal c * 16 + hexVal d)
    else none
  | _, _, _, _ => none
where
  hexVal (c : Char) : Nat :=
    if c.isDigit then c.toNat - 48
    else if 'a' ≤ c && c ≤ 'f' then c.toNat - 87
    else c.toNat - 55

/-- Code point to character.  Python strings may hold lone surrogates
(from unpaired `\uD800`-range escapes); Lean characters are Unicode
scalar values, so those map to U+FFFD here.  No claim exercises them. -/
def mkCp (n : Nat) : Char :=
  if n < 0xd800 then Char.ofNat n
  else if 0xdfff < n && n < 0x110000 then Char.ofNat n
  else '�'

/-- The string scanner of `json.loads` (`scanstring`, strict mode), with
the C scanner's error messages and positions: unterminated strings point
at the opening quote, invalid escapes at the backslash, invalid
`\uXXXX` escapes at the `u`, control characters at themselves.
`begin` is the index of the opening quote; scanning starts at `i`.
Fuel is at least the remaining input length, so it never runs out. -/
def scanStr (doc : List Char) (begin2 : Nat) :
    Nat → Nat → Except JsonErr (List Char × Nat)
  | 0, _ => .error ⟨"Unterminated string starting at", begin2⟩
  | fuel + 1, i =>
    match charAt doc i with
    | none => .error ⟨"Unterminated string starting at", begin2⟩
    | some c =>
      if c = '"' then .ok ([], i + 1)
      else if c = '\\' then
        match charAt doc (i + 1) with
        | none => .error ⟨"Unterminated string starting at", begin2⟩
        | some esc =>
          if esc = 'u' then
            match hex4 doc (i + 2) with
            | none => .error ⟨"Invalid \\uXXXX escape", i + 1⟩
            | some u =>
              if 0xd800 ≤ u && u ≤ 0xdbff && subEq doc (i + 6) ['\\', 'u'] then
                match hex4 doc (i + 8) with
                | none => .error ⟨"Invalid \\uXXXX escape", i + 7⟩
                | some u2 =>
                  if 0xdc00 ≤ u2 && u2 ≤ 0xdfff then
                    (scanStr doc begin2 fuel (i + 12)).map (fun r =>
                      (mkCp (0x10000 + (u - 0xd800) * 1024 + (u2 - 0xdc00)) :: r.1, r.2))
                  else
                    (scanStr doc begin2 fuel (i + 6)).map (fun r => (mkCp u :: r.1, r.2))
              else
                (scanStr doc begin2 fuel (i + 6)).map (fun r => (mkCp u :: r.1, r.2))
          else
            match escChar esc with
            | some ec => (scanStr doc begin2 fuel (i + 2)).map (fun r => (ec :: r.1, r.2))
            | none => .error ⟨"Invalid \\escape", i⟩
      else if c.toNat < 0x20 then .error ⟨"Invalid control character at", i⟩
      else (scanStr doc begin2 fuel (i + 1)).map (fun r => (c :: r.1, r.2))

/-- The `NUMBER_RE` match of `json.scanner` at index `i`:
`(-?(?:0|[1-9]\d*))(\.\d+)?([eE][-+]?\d+)?`, returning the number and the
index after the match. -/
def matchNumber (doc : List Char) (i : Nat) : Option (JNum × Nat) :=
  let (neg, i1) := if charAt doc i = some '-' then (true, i + 1) else (false, i)
  let intDigits : List Char :=
    match charAt doc i1 with
    | some '0' => ['0']
    | some c =>
      if c.isDigit then (doc.drop i1).takeWhile Char.isDigit else []
    | none => []
  if intDigits = [] then none
  else
    let i2 := i1 + intDigits.length
    let fracDigits : List Char :=
      if charAt doc i2 = some '.' then (doc.drop (i2 + 1)).takeWhile Char.isDigit
      else []
    let (hasFrac, i3) :=
      if fracDigits = [] then (false, i2) else (true, i2 + 1 + fracDigits.length)
    let expoPart : Option (Int × Nat) :=
      match charAt doc i3 with
      | some c =>
        if c = 'e' || c = 'E' then
          let (esign, j) :=
            match charAt doc (i3 + 1) with
            | some '+' => ((1 : Int), i3 + 2)
            | some '-' => ((-1 : Int), i3 + 2)
            | _ => ((1 : Int), i3 + 1)
          let eds := (doc.drop j).takeWhile Char.isDigit
          if eds = [] then none
          else some (esign * Int.ofNat (digitsToNat eds), j + eds.length)
        else none
      | none => none
    let iv : Int :=
      if neg then -Int.ofNat (digitsToNat intDigits) else Int.ofNat (digitsToNat intDigits)
    match hasFrac, expoPart with
    | false, none => some (.int iv, i2)
    | false, some (e, i4) => some (.dec iv [] e, i4)
    | true, none => some (.dec iv fracDigits 0, i3)
    | true, some (e, i4) => some (.dec iv fracDigits e, i4)
where
  digitsToNat (ds : List Char) : Nat := ds.foldl (fun a c => a * 10 + digitVal c) 0

mutual

/-- `scan_once` of CPython's C JSON scanner: dispatch on the character at
`i`; for `{` and `[` skip whitespace, accept the empty collection, else
enter the member/element loop.  Fuel exceeds twice the document length
at the top call and every nested call consumes input, so exhaustion is
unreachable; it reports the same error an unrecognized character would. -/
def scanOnce (doc : List Char) : Nat → Nat → Except JsonErr (Json × Nat)
  | 0, i => .error ⟨"Expecting value", i⟩
  | fuel + 1, i =>
    match charAt doc i with
    | none => .error ⟨"Expecting value", i⟩
    | some c =>
      if c = '"' then
        (scanStr doc i (doc.length + 1) (i + 1)).map (fun r => (.str (String.mk r.1), r.2))
      else if c = '{' then
        let j := skipWs doc (i + 1)
        if charAt doc j = some '}' then .ok (.obj [], j + 1)
        else parseObjLoop doc fuel [] j
      else if c = '[' then
        let j := skipWs doc (i + 1)
        if charAt doc j = some ']' then .ok (.arr [], j + 1)
        else parseArrLoop doc fuel [] j
      else if subEq doc i ['n', 'u', 'l', 'l'] then .ok (.null, i + 4)
      else if subEq doc i ['t', 'r', 'u', 'e'] then .ok (.bool true, i + 4)
      else if subEq doc i ['f', 'a', 'l', 's', 'e'] then .ok (.bool false, i + 5)
      else if subEq doc i ['N', 'a', 'N'] then .ok (.num .nan, i + 3)
      else if subEq doc i ['I', 'n', 'f', 'i', 'n', 'i', 't', 'y'] then
        .ok (.num (.inf false), i + 8)
      else if subEq doc i ['-', 'I', 'n', 'f', 'i', 'n', 'i', 't', 'y'] then
        .ok (.num (.inf true), i + 9)
      else
        match matchNumber doc i with
        | some (n, e) => .ok (.num n, e)
        | none => .error ⟨"Expecting value", i⟩

/-- The object member loop, entered at the expected position of a key. -/
def parseObjLoop (doc : List Char) :
    Nat → List (String × Json) → Nat → Except JsonErr (Json × Nat)
  | 0, _, i => .error ⟨"Expecting property name enclosed in double quotes", i⟩
  | fuel + 1, acc, i =>
    if charAt doc i ≠ some '"' then
      .error ⟨"Expecting property name enclosed in double quotes", i⟩
    else
      match scanStr doc i (doc.length + 1) (i + 1) with
      | .error e => .error e
      | .ok (keyCs, e1) =>
        let j := skipWs doc e1
        if charAt doc j ≠ some ':' then .error ⟨"Expecting ':' delimiter", j⟩
        else
          match scanOnce doc fuel (skipWs doc (j + 1)) with
          | .error e => .error e
          | .ok (v, e2) =>
            let acc2 := dictInsert acc (String.mk keyCs) v
            let p := skipWs doc e2
            match charAt doc p with
            | some '}' => .ok (.obj acc2, p + 1)
            | some ',' => parseObjLoop doc fuel acc2 (skipWs doc (p + 1))
            | _ => .error ⟨"Expecting ',' delimiter", p⟩

/-- The array element loop, entered at the expected position of a value.
`acc` holds earlier elements in reverse. -/
def parseArrLoop (doc : List Char) :
    Nat → List Json → Nat → Except JsonErr (Json × Nat)
  | 0, _, i => .error ⟨"Expecting value", i⟩
  | fuel + 1, acc, i =>
    match scanOnce doc fuel i with
    | .error e => .error e
    | .ok (v, e) =>
      let p := skipWs doc e
      match charAt doc p with
      | some ']' => .ok (.arr (v :: acc).reverse, p + 1)
      | some ',' => parseArrLoop doc fuel (v :: acc) (skipWs doc (p + 1))
      | _ => .error ⟨"Expecting ',' delimiter", p⟩

end

/-- CPython's `json.loads` (default decoder, Python 3.11 C scanner):
skip leading whitespace, scan one value, skip trailing whitespace, and
reject extra data. -/
def pyJsonLoads (s : String) : Except JsonErr Json :=
  let doc := s.toList
  let i0 := skipWs doc 0
  match scanOnce doc (2 * doc.length + 2) i0 with
  | .error e => .error e
  | .ok (v, e) =>
    let j := skipWs doc e
    if j ≠ doc.length then .error ⟨"Extra data", j⟩ else .ok v

/-- Python type name of a JSON value, as it appears in runtime error
messages such as `AttributeError`. -/
def jsonTypeName : Json → String
  | .null => "NoneType"
  | .bool _ => "bool"
  | .str _ => "str"
  | .num (.int _) => "int"
  | .num _ => "float"
  | .arr _ => "list"
  | .obj _ => "dict"

/-- Python truthiness of a JSON value. -/
def jsonTruthy : Json → Bool
  | .null => false
  | .bool b => b
  | .str s => s ≠ ""
  | .num (.int n) => n ≠ 0
  | .num (.dec i f _) => !(i = 0 && f.all (fun c => c = '0'))
  | .num .nan => true
  | .num (.inf _) => true
  | .arr xs => !xs.isEmpty
  | .obj kvs => !kvs.isEmpty

/-- A Python exception inside `extract_data`'s `try` block: its message
and whether it is a `ValueError` (pydantic's `ValidationError` is one).
`ValueError`s are re-raised verbatim; everything else is classified. -/
structure PyExc where
  msg : String
  isValueError : Bool
deriving DecidableEq, Repr

/-- `AttributeError` raised by `.get` on a non-dict
(`'X' object has no attribute 'get'`). -/
def attrGetErr (j : Json) : PyExc :=
  ⟨"'" ++ jsonTypeName j ++ "' object has no attribute 'get'", false⟩

/-- A value inside the mutated `passport_dict`: either still a JSON
value or a `datetime.date` produced by the conversion loop. -/
inductive PyVal where
  | json (j : Json)
  | date (d : PyDate)

/-- `d.get(k)` on the mutated passport dict. -/
def pvGet (kvs : List (String × PyVal)) (k : String) : Option PyVal :=
  (kvs.find? (fun p => p.1 == k)).map (fun p => p.2)

/-- `d[k] = v` on the mutated passport dict (key known present). -/
def pvSet (kvs : List (String × PyVal)) (k : String) (v : PyVal) :
    List (String × PyVal) :=
  match kvs with
  | [] => []
  | (k0, v0) :: t => if k0 == k then (k0, v) :: t else (k0, v0) :: pvSet t k v

/-- One iteration of the date-conversion loop of `extract_data` (lines
137-146): if the field is present, truthy and a string, replace it by
the parsed date, or by `None` when `strptime` fails; other values are
left untouched. -/
def convertDateField (d : List (String × PyVal)) (field : String) :
    List (String × PyVal) :=
  match pvGet d field with
  | some (.json j) =>
    if jsonTruthy j then
      match j with
      | .str s =>
        pvSet d field (match pyStrptimeYMD s with
          | some dt => .date dt
          | none => .json .null)
      | _ => d
    else d
  | _ => d

/-- The full date-conversion loop over the three passport date fields,
in source order. -/
def convertPassportDates (d : List (String × PyVal)) : List (String × PyVal) :=
  ["date_of_birth", "issue_date", "expiry_date"].foldl convertDateField d

/-- An abbreviated pydantic `ValidationError` message.  The real text
also carries input reprs, URLs, and aggregates several field errors;
`extract_data` re-raises it verbatim (it is a `ValueError`) and never
inspects it, so only its presence matters downstream. -/
def valErr (modelName field reason : String) : PyExc :=
  ⟨"1 validation error for " ++ modelName ++ "\n" ++ field ++ "\n  " ++ reason,
    true⟩

/-- Pydantic v2 validation of an `Optional[str]` field: `None` and `str`
pass, anything else is rejected (v2 does not coerce numbers or bools to
strings). -/
def vStr (modelName field : String) (v : Option PyVal) :
    Except PyExc (Option String) :=
  match v with
  | none => .ok none
  | some (.json .null) => .ok none
  | some (.json (.str s)) => .ok (some s)
  | some _ => .error (valErr modelName field "Input should be a valid string")

/-- Pydantic v2 validation of an `Optional[date]` field: `None`, `date`
objects and strict `YYYY-MM-DD` strings pass, anything else is rejected.
(Pydantic additionally coerces exact-midnight numeric timestamps; no
numeric date input occurs in the pipeline or the claims, and after the
conversion loop the only string that can reach this validator is `""`.) -/
def vDate (modelName field : String) (v : Option PyVal) :
    Except PyExc (Option PyDate) :=
  match v with
  | none => .ok none
  | some (.json .null) => .ok none
  | some (.date d) => .ok (some d)
  | some (.json (.str s)) =>
    match s.toList with
    | [y1, y2, y3, y4, '-', m1, m2, '-', d1, d2] =>
      if [y1, y2, y3, y4, m1, m2, d1, d2].all Char.isDigit then
        let y := digitVal y1 * 1000 + digitVal y2 * 100 + digitVal y3 * 10 + digitVal y4
        let m := digitVal m1 * 10 + digitVal m2
        let d := digitVal d1 * 10 + digitVal d2
        if 1 ≤ y && 1 ≤ m && m ≤ 12 && 1 ≤ d && d ≤ daysInMonth y m then
          .ok (some ⟨y, m, d⟩)
        else .error (valErr modelName field "Input should be a valid date")
      else .error (valErr modelName field "Input should be a valid date")
    | _ => .error (valErr modelName field "Input should be a valid date")
  | some _ => .error (valErr modelName field "Input should be a valid date")

/-- Pydantic v2 validation of an `Optional[bool]` field: `None` and
`bool` pass; lax mode also accepts the usual string spellings and 0/1
numbers. -/
def vBool (modelName field : String) (v : Option PyVal) :
    Except PyExc (Option Bool) :=
  match v with
  | none => .ok none
  | some (.json .null) => .ok none
  | some (.json (.bool b)) => .ok (some b)
  | some (.json (.str s)) =>
    let l := pyLower s
    if l ∈ ["true", "t", "yes", "y", "on", "1"] then .ok (some true)
    else if l ∈ ["false", "f", "no", "n", "off", "0"] then .ok (some false)
    else .error (valErr modelName field "Input should be a valid boolean")
  | some (.json (.num (.int 0))) => .ok (some false)
  | some (.json (.num (.int 1))) => .ok (some true)
  | some _ => .error (valErr modelName field "Input should be a valid boolean")

/-- `PassportData(**passport_dict)`: pydantic validation of each declared
field (extra keys are ignored, the v2 default).  Pydantic aggregates all
field errors into one `ValidationError`; this model reports the first,
which `extract_data` treats identically (re-raised, never inspected). -/
def buildPassport (pd : List (String × PyVal)) : Except PyExc PassportData := do
  let surname ← vStr "PassportData" "surname" (pvGet pd "surname")
  let given_names ← vStr "PassportData" "given_names" (pvGet pd "given_names")
  let middle_names ← vStr "PassportData" "middle_names" (pvGet pd "middle_names")
  let passport_number ← vStr "PassportData" "passport_number" (pvGet pd "passport_number")
  let country_of_issue ← vStr "PassportData" "country_of_issue" (pvGet pd "country_of_issue")
  let nationality ← vStr "PassportData" "nationality" (pvGet pd "nationality")
  let date_of_birth ← vDate "PassportData" "date_of_birth" (pvGet pd "date_of_birth")
  let place_of_birth ← vStr "PassportData" "place_of_birth" (pvGet pd "place_of_birth")
  let sex ← vStr "PassportData" "sex" (pvGet pd "sex")
  let issue_date ← vDate "PassportData" "issue_date" (pvGet pd "issue_date")
  let expiry_date ← vDate "PassportData" "expiry_date" (pvGet pd "expiry_date")
  .ok { surname, given_names, middle_names, passport_number, country_of_issue,
        nationality, date_of_birth, place_of_birth, sex, issue_date, expiry_date }

/-- `TypeError` raised by `SomeModel(**v)` when `v` is not a mapping. -/
def starStarErr (funcName : String) (j : Json) : PyExc :=
  ⟨funcName ++ "() argument after ** must be a mapping, not " ++ jsonTypeName j,
    false⟩

/-- Lift a plain JSON dict into `PyVal` form for field validation. -/
def jsonFields (kvs : List (String × Json)) : List (String × PyVal) :=
  kvs.map (fun kv => (kv.1, PyVal.json kv.2))

/-- `AttorneyInfo(**v)`. -/
def buildAttorney (j : Json) : Except PyExc AttorneyInfo :=
  match j with
  | .obj kvs => do
    let pd := jsonFields kvs
    let first_name ← vStr "AttorneyInfo" "first_name" (pvGet pd "first_name")
    let middle_name ← vStr "AttorneyInfo" "middle_name" (pvGet pd "middle_name")
    let last_name ← vStr "AttorneyInfo" "last_name" (pvGet pd "last_name")
    let street ← vStr "AttorneyInfo" "street" (pvGet pd "street")
    let city ← vStr "AttorneyInfo" "city" (pvGet pd "city")
    let state ← vStr "AttorneyInfo" "state" (pvGet pd "state")
    let zip ← vStr "AttorneyInfo" "zip" (pvGet pd "zip")
    let country ← vStr "AttorneyInfo" "country" (pvGet pd "country")
    let phone ← vStr "AttorneyInfo" "phone" (pvGet pd "phone")
    let email ← vStr "AttorneyInfo" "email" (pvGet pd "email")
    let fax ← vStr "AttorneyInfo" "fax" (pvGet pd "fax")
    let online_account ← vStr "AttorneyInfo" "online_account" (pvGet pd "online_account")
    .ok { first_name, middle_name, last_name, street, city, state, zip,
          country, phone, email, fax, online_account }
  | _ => .error (starStarErr "AttorneyInfo" j)

/-- `EligibilityInfo(**v)`. -/
def buildEligibility (j : Json) : Except PyExc EligibilityInfo :=
  match j with
  | .obj kvs => do
    let pd := jsonFields kvs
    let licensing_authority ← vStr "EligibilityInfo" "licensing_authority" (pvGet pd "licensing_authority")
    let bar_number ← vStr "EligibilityInfo" "bar_number" (pvGet pd "bar_number")
    let law_firm ← vStr "EligibilityInfo" "law_firm" (pvGet pd "law_firm")
    let is_not_subject_to_orders ←
      vBool "EligibilityInfo" "is_not_subject_to_orders" (pvGet pd "is_not_subject_to_orders")
    .ok { licensing_authority, bar_number, law_firm, is_not_subject_to_orders }
  | _ => .error (starStarErr "EligibilityInfo" j)

/-- `ClientInfo(**v)`. -/
def buildClient (j : Json) : Except PyExc ClientInfo :=
  match j with
  | .obj kvs => do
    let pd := jsonFields kvs
    let first_name ← vStr "ClientInfo" "first_name" (pvGet pd "first_name")
    let middle_name ← vStr "ClientInfo" "middle_name" (pvGet pd "middle_name")
    let last_name ← vStr "ClientInfo" "last_name" (pvGet pd "last_name")
    let street ← vStr "ClientInfo" "street" (pvGet pd "street")
    let city ← vStr "ClientInfo" "city" (pvGet pd "city")
    let state ← vStr "ClientInfo" "state" (pvGet pd "state")
    let zip ← vStr "ClientInfo" "zip" (pvGet pd "zip")
    let country ← vStr "ClientInfo" "country" (pvGet pd "country")
    let phone ← vStr "ClientInfo" "phone" (pvGet pd "phone")
    let email ← vStr "ClientInfo" "email" (pvGet pd "email")
    let a_number ← vStr "ClientInfo" "a_number" (pvGet pd "a_number")
    .ok { first_name, middle_name, last_name, street, city, state, zip,
          country, phone, email, a_number }
  | _ => .error (starStarErr "ClientInfo" j)

/-- One optional G-28 group: `Model(**g28_dict.get(key)) if
g28_dict.get(key) else None`. -/
def buildGroup {α : Type} (build : Json → Except PyExc α)
    (gkvs : List (String × Json)) (key : String) : Except PyExc (Option α) :=
  match dictGet gkvs key with
  | some v => if jsonTruthy v then (build v).map some else .ok none
  | none => .ok none

/-- Lines 134-167 of `extract_data`: everything after a successful
`json.loads`.  `data.get("passport", {})` and `data.get("g28", {})`
default MISSING keys to empty dicts (an explicit `null` or any non-dict
value is kept and then blows up in `.get`/`**` with an
`AttributeError`/`TypeError`).  The date loop runs before passport
validation; the G-28 groups are built after it. -/
def processParsed (data : Json) : Except PyExc (PassportData × G28Data) :=
  match data with
  | .obj kvs =>
    let passportJ := match dictGet kvs "passport" with
      | some v => v
      | none => .obj []
    match passportJ with
    | .obj pkvs => do
      let pd := convertPassportDates (jsonFields pkvs)
      let passport ← buildPassport pd
      let g28J := match dictGet kvs "g28" with
        | some v => v
        | none => .obj []
      match g28J with
      | .obj gkvs => do
        let attorney ← buildGroup buildAttorney gkvs "attorney"
        let eligibility ← buildGroup buildEligibility gkvs "eligibility"
        let client ← buildGroup buildClient gkvs "client"
        .ok (passport, ⟨attorney, eligibility, client⟩)
      | other => .error (attrGetErr other)
    | other => .error (attrGetErr other)
  | _ => .error (attrGetErr data)

/-- The configured model name (`config.GEMINI_MODEL_NAME` default; its
contents never influence control flow). -/
def GEMINI_MODEL_NAME : String := "gemini-1.5-flash"

/-- Lines 180-199 of `extract_data`: the string-pattern classification of
a non-`ValueError` exception text.  Note `"API key"` is matched
case-sensitively while the other patterns match on the lowercased text. -/
def classify (error_msg : String) : String :=
  if pyIn "API key" error_msg || pyIn "authentication" (pyLower error_msg) then
    "Gemini API authentication failed. Please verify your GEMINI_API_KEY in .env file."
  else if pyIn "quota" (pyLower error_msg) || pyIn "rate limit" (pyLower error_msg) then
    "Gemini API quota exceeded or rate limit reached. Please try again later."
  else if pyIn "model" (pyLower error_msg) then
    "Invalid Gemini model name: " ++ GEMINI_MODEL_NAME ++
      ". Please check GEMINI_MODEL_NAME in .env file."
  else
    "LLM extraction error: " ++ error_msg ++
      ". Please check your API key and model configuration."

/-- Python `s.startswith(lit)` (by characters). -/
def pyStartsWith (s lit : String) : Bool :=
  listStartsWith s.toList lit.toList

/-- Python `s.endswith(lit)` (by characters). -/
def pyEndsWith (s lit : String) : Bool :=
  listStartsWith s.toList.reverse lit.toList.reverse

/-- Python `s[n:]` (drop the first `n` characters). -/
def pyDropChars (s : String) (n : Nat) : String :=
  String.mk (s.toList.drop n)

/-- Python `s[:-n]` for `0 < n ≤ len(s)` (drop the last `n` characters). -/
def pyDropRightChars (s : String) (n : Nat) : String :=
  String.mk ((s.toList.reverse.drop n).reverse)

/-- Lines 110-120 of `extract_data`: `response.text.strip()`, then
sequential markdown fence stripping, then a final strip. -/
def preprocessResponse (raw : String) : String :=
  let t0 := pyStrip raw
  let t1 := if pyStartsWith t0 "```json" then pyDropChars t0 7 else t0
  let t2 := if pyStartsWith t1 "```" then pyDropChars t1 3 else t1
  let t3 := if pyEndsWith t2 "```" then pyDropRightChars t2 3 else t2
  pyStrip t3

/-- The outcome of `model.generate_content` plus `response.text`: either
a response text, or an exception with its message and whether it is a
`ValueError`.  (A `response.text` of Python `None` surfaces as the
`AttributeError` exception case.) -/
inductive RemoteResult where
  | ok (text : String)
  | exc (msg : String) (isValueError : Bool)

/-- `extract_data` of `src/extractors/combined_extraction.py`, as a
function of the remote call's outcome.  The result is `Except`: `.error`
is the `ValueError` the Python function raises, with its message. -/
def extract_data (remote : RemoteResult) : Except String (PassportData × G28Data) :=
  match remote with
  | .exc msg isVE => .error (if isVE then msg else classify msg)
  | .ok raw =>
    let t := preprocessResponse raw
    match pyJsonLoads t with
    | .error e =>
      .error ("Gemini API returned invalid JSON format. JSON parsing error: " ++
        jsonErrStr t.toList e)
    | .ok data =>
      match processParsed data with
      | .ok r => .ok r
      | .error exc => .error (if exc.isValueError then exc.msg else classify exc.msg)

/-- Is an `Except` a success? -/
def isOkB {ε α : Type} : Except ε α → Bool
  | .ok _ => true
  | .error _ => false

/-- Environment of the PDF branch of the text-acquisition functions in
`src/utils/ocr_handler.py`: the direct `extract_text_from_pdf` result,
the `get_pdf_page_count` result (0 is its error sentinel), and the
per-page render-plus-OCR outcome (`none` for a failed render, an OCR
failure, or an exception; pages are 0-indexed). -/
structure PdfTextEnv where
  direct : Option String
  pageCount : Nat
  pageText : Nat → Option String

/-- Line 143 / line 253: `if text and len(text.strip()) >= 50`. -/
def directAccepted (direct : Option String) : Bool :=
  match direct with
  | some t => t ≠ "" && 50 ≤ (pyStrip t).length
  | none => false

/-- Lines 153-190 of `extract_text_from_pdf_or_image`: OCR every page,
keep the truthy page texts with their `[Page N]` markers, join with
blank lines; fail on a zero page count or when no page yields text. -/
def ocrAllPages (env : PdfTextEnv) : Option String :=
  if env.pageCount = 0 then none
  else
    let page_texts := (List.range env.pageCount).filterMap (fun n =>
      match env.pageText n with
      | some t => if t = "" then none else some ("[Page " ++ toString (n + 1) ++ "]\n" ++ t)
      | none => none)
    if page_texts.isEmpty then none
    else some (String.intercalate "\n\n" page_texts)

/-- `ocr_handler.extract_text_from_pdf_or_image`, over a lowercased file
extension: the PDF branch accepts direct text at the 50-character
threshold and otherwise falls back to per-page local OCR; images go
straight to OCR (`imageOcr` is that outcome); other types fail. -/
def extract_text_from_pdf_or_image (ext : String) (env : PdfTextEnv)
    (imageOcr : Option String) : Option String :=
  if ext = ".pdf" then
    if directAccepted env.direct then env.direct else ocrAllPages env
  else if ext = ".jpg" || ext = ".jpeg" || ext = ".png" then imageOcr
  else none

/-- `ocr_handler.extract_passport_text_with_gemini`: the PDF branch
accepts direct text at the same 50-character threshold and otherwise
falls back to the remote upload-and-transcribe call (`remoteOcr` is its
outcome, `none` covering exceptions and empty responses); images go to
the inline remote call; other types fail. -/
def extract_passport_text_with_gemini (ext : String) (env : PdfTextEnv)
    (remoteOcr : Option String) (imageRemote : Option String) : Option String :=
  if ext = ".pdf" then
    if directAccepted env.direct then env.direct else remoteOcr
  else if ext = ".jpg" || ext = ".jpeg" || ext = ".png" then imageRemote
  else none

/-- Outcome of driving one element in `_fill_page`: an exception during
locating, evaluating or filling; a zero locator count; or a successful
fill/select/check. -/
inductive ElemOutcome where
  | raises
  | notFound
  | filled
deriving DecidableEq

/-- Environment of a `populate_form` run: whether browser launch or page
creation raises, whether navigation raises, the per-identifier element
outcomes for text fields and checkboxes, and whether the screenshot or
PDF steps raise.  Messages are the stringified exceptions. -/
structure PageEnv where
  launchRaises : Option String
  navRaises : Option String
  field : String → ElemOutcome
  checkbox : String → ElemOutcome
  screenshotRaises : Option String
  pdfRaises : Option String

/-- The result dictionary of `form_filler`. -/
structure FillResult where
  success : Bool
  total_filled : Nat
  total_failed : Nat
  filled_fields : List String
  failed_fields : List String
  screenshot_path : Option String
  pdf_path : Option String
  error : Option String
deriving DecidableEq, Repr

/-- `form_filler._fill_page`: navigate, fill each non-empty text field
(empty values are skipped), drive each checkbox (both `true` and `false`
are driven), then screenshot and optionally PDF; any exception outside
the per-field try blocks propagates as `.error`. -/
def fill_page (env : PageEnv) (fields : List (String × String))
    (checkboxes : List (String × Bool)) (generate_pdf : Bool) :
    Except String FillResult :=
  match env.navRaises with
  | some e => .error e
  | none =>
    let step := fun (acc : List String × List String) (kv : String × String) =>
      if kv.2 = "" then acc
      else match env.field kv.1 with
        | .raises => (acc.1, acc.2 ++ [kv.1])
        | .notFound => (acc.1, acc.2 ++ [kv.1])
        | .filled => (acc.1 ++ [kv.1], acc.2)
    let acc1 := fields.foldl step ([], [])
    let stepC := fun (acc : List String × List String) (kv : String × Bool) =>
      match env.checkbox kv.1 with
      | .raises => (acc.1, acc.2 ++ [kv.1])
      | .notFound => (acc.1, acc.2 ++ [kv.1])
      | .filled => (acc.1 ++ [kv.1], acc.2)
    let acc2 := checkboxes.foldl stepC acc1
    match env.screenshotRaises with
    | some e => .error e
    | none =>
      match (if generate_pdf then env.pdfRaises else none) with
      | some e => .error e
      | none =>
        .ok { success := 0 < acc2.1.length,
              total_filled := acc2.1.length,
              total_failed := acc2.2.length,
              filled_fields := acc2.1,
              failed_fields := acc2.2,
              screenshot_path := some "uploads/form_populated.png",
              pdf_path := if generate_pdf then some "uploads/form_filled.pdf" else none,
              error := none }

/-- `form_filler.populate_form`: both the headless branch (PDF generated)
and the visual branch (no PDF) run `_fill_page` inside one `try`; any
exception produces the fixed all-zero failure dictionary with a
`"Form population failed: "` message. -/
def populate_form (headless : Bool) (env : PageEnv)
    (fields : List (String × String)) (checkboxes : List (String × Bool)) :
    FillResult :=
  let attempt : Except String FillResult :=
    match env.launchRaises with
    | some e => .error e
    | none => fill_page env fields checkboxes headless
  match attempt with
  | .ok r => r
  | .error e =>
    { success := false, total_filled := 0, total_failed := 0,
      filled_fields := [], failed_fields := [],
      screenshot_path := none, pdf_path := none,
      error := some ("Form population failed: " ++ e) }

/-- A list starts with itself, whatever follows. -/
theorem listStartsWith_append (xs ys : List Char) :
    listStartsWith (xs ++ ys) xs = true := by
  induction xs with
  | nil => simp [listStartsWith]
  | cons a t ih => simp [listStartsWith, ih]

/-- The empty needle is contained in every haystack. -/
theorem listHasSub_nil (hay : List Char) : listHasSub hay [] = true := by
  induction hay with
  | nil => simp [listHasSub]
  | cons a t _ => simp [listHasSub, listStartsWith]

/-- Substring containment holds at any split point. -/
theorem listHasSub_append (pre needle post : List Char) :
    listHasSub (pre ++ (needle ++ post)) needle = true := by
  induction pre with
  | nil =>
    simp only [List.nil_append]
    cases needle with
    | nil => exact listHasSub_nil post
    | cons a t =>
      simp [listHasSub, listStartsWith, listStartsWith_append]
  | cons a t ih =>
    simp [listHasSub, ih]

/-- Python `needle in a + needle + b` is true. -/
theorem pyIn_append_mid (a n b : String) : pyIn n (a ++ (n ++ b)) = true := by
  have h1 : (a ++ (n ++ b)).toList = a.toList ++ (n.toList ++ b.toList) := by
    simp [String.toList, String.data_append]
  unfold pyIn
  rw [h1]
  exact listHasSub_append a.toList n.toList b.toList

/-- Python `needle in a + needle` is true. -/
theorem pyIn_append_right (a n : String) : pyIn n (a ++ n) = true := by
  have h1 : (a ++ n).toList = a.toList ++ (n.toList ++ ([] : List Char)) := by
    simp [String.toList, String.data_append]
  unfold pyIn
  rw [h1]
  exact listHasSub_append a.toList n.toList []

/-- C5: `FieldMapper` is total — `map_to_form_fields` and
`get_checkbox_fields` are plain functions that never raise; for the
entirely empty records every produced value is the empty string and the
checkbox map is empty; for every pair of records the full passport
section (11 identifiers) is produced; and whenever the eligibility
boolean is absent (group missing or field null) the checkbox map has
zero entries. -/
theorem C5_mapper_totality :
    ((map_to_form_fields PassportData.empty G28Data.empty).map Prod.snd =
      List.replicate 11 "") ∧
    (get_checkbox_fields G28Data.empty = []) ∧
    (∀ (p : PassportData) (g : G28Data), 11 ≤ (map_to_form_fields p g).length) ∧
    (∀ g : G28Data, g.eligibility = none → get_checkbox_fields g = []) ∧
    (∀ (g : G28Data) (e : EligibilityInfo), g.eligibility = some e →
      e.is_not_subject_to_orders = none → get_checkbox_fields g = []) := by
  refine ⟨rfl, rfl, ?_, ?_, ?_⟩
  · intro p g
    cases g.attorney <;> cases g.eligibility <;>
      simp [map_to_form_fields]
  · intro g h
    simp [get_checkbox_fields, h]
  · intro g e h1 h2
    simp [get_checkbox_fields, h1, h2]

/-- C5 witness: the totality statement evaluated on concrete records. -/
theorem C5_mapper_totality_witness :
    get_checkbox_fields { attorney := none, eligibility := none, client := none } = [] ∧
    get_checkbox_fields { attorney := none, eligibility := some {}, client := none } = [] ∧
    11 ≤ (map_to_form_fields PassportData.empty G28Data.empty).length :=
  ⟨C5_mapper_totality.2.2.2.1 _ rfl,
   C5_mapper_totality.2.2.2.2 _ {} rfl rfl,
   C5_mapper_totality.2.2.1 PassportData.empty G28Data.empty⟩

/-- C6: the three passport date fields are rendered with `str(date)` —
the ISO calendar form, `2030-01-15` for the date 2030-01-15 — and an
absent date renders as the empty string. -/
theorem C6_date_rendering :
    ∀ (p : PassportData) (g : G28Data),
      lookupField (map_to_form_fields p g) "passport-dob" =
        some (dateFieldStr p.date_of_birth) ∧
      lookupField (map_to_form_fields p g) "passport-issue-date" =
        some (dateFieldStr p.issue_date) ∧
      lookupField (map_to_form_fields p g) "passport-expiry-date" =
        some (dateFieldStr p.expiry_date) ∧
      pyDateStr ⟨2030, 1, 15⟩ = "2030-01-15" ∧
      dateFieldStr (some ⟨2030, 1, 15⟩) = "2030-01-15" ∧
      dateFieldStr none = "" := by
  intro p g
  refine ⟨?_, ?_, ?_, rfl, rfl, rfl⟩ <;>
    simp [map_to_form_fields, lookupField, List.find?]

/-- C7: the given-name split — the first identifier receives
`given_names`, the second "virtual" identifier receives `middle_names`,
and the virtual identifier is present (mapped to the empty string) even
when `middle_names` is absent. -/
theorem C7_given_name_split :
    ∀ (p : PassportData) (g : G28Data),
      lookupField (map_to_form_fields p g) "passport-given-names" =
        some (get_value p.given_names) ∧
      lookupField (map_to_form_fields p g) "passport-middle-name" =
        some (get_value p.middle_names) ∧
      (p.middle_names = none →
        lookupField (map_to_form_fields p g) "passport-middle-name" = some "") ∧
      (p.given_names = some "John" → p.middle_names = some "Q" →
        lookupField (map_to_form_fields p g) "passport-given-names" = some "John" ∧
        lookupField (map_to_form_fields p g) "passport-middle-name" = some "Q") := by
  intro p g
  refine ⟨?_, ?_, ?_, ?_⟩
  · simp [map_to_form_fields, lookupField, List.find?]
  · simp [map_to_form_fields, lookupField, List.find?]
  · intro h
    simp [map_to_form_fields, lookupField, List.find?, h, get_value]
  · intro h1 h2
    constructor <;> simp [map_to_form_fields, lookupField, List.find?, h1, h2, get_value]

/-- C7 witness: the split evaluated on concrete records. -/
theorem C7_given_name_split_witness :
    lookupField
      (map_to_form_fields
        { given_names := some "John", middle_names := some "Q" } G28Data.empty)
      "passport-given-names" = some "John" ∧
    lookupField
      (map_to_form_fields
        { given_names := some "John", middle_names := some "Q" } G28Data.empty)
      "passport-middle-name" = some "Q" ∧
    lookupField (map_to_form_fields PassportData.empty G28Data.empty)
      "passport-middle-name" = some "" :=
  ⟨((C7_given_name_split _ G28Data.empty).2.2.2 rfl rfl).1,
   ((C7_given_name_split _ G28Data.empty).2.2.2 rfl rfl).2,
   (C7_given_name_split PassportData.empty G28Data.empty).2.2.1 rfl⟩

/-- C9: `get_checkbox_fields` yields zero entries when the eligibility
boolean is null or the group is absent, exactly one entry mapped to
`false` when it is false, and exactly one entry mapped to `true` when it
is true. -/
theorem C9_checkbox_null_false_true :
    ∀ (g : G28Data) (e : EligibilityInfo),
      (g.eligibility = none → get_checkbox_fields g = []) ∧
      (g.eligibility = some e → e.is_not_subject_to_orders = none →
        get_checkbox_fields g = []) ∧
      (g.eligibility = some e → e.is_not_subject_to_orders = some false →
        get_checkbox_fields g = [("not-subject", false)]) ∧
      (g.eligibility = some e → e.is_not_subject_to_orders = some true →
        get_checkbox_fields g = [("not-subject", true)]) := by
  intro g e
  refine ⟨fun h1 => ?_, fun h1 h2 => ?_, fun h1 h2 => ?_, fun h1 h2 => ?_⟩
  · simp [get_checkbox_fields, h1]
  · simp [get_checkbox_fields, h1, h2]
  · simp [get_checkbox_fields, h1, h2]
  · simp [get_checkbox_fields, h1, h2]

/-- C9 witness: the three cases evaluated on concrete records. -/
theorem C9_checkbox_null_false_true_witness :
    get_checkbox_fields { eligibility := some {} } = [] ∧
    get_checkbox_fields
      { eligibility := some { is_not_subject_to_orders := some false } } =
      [("not-subject", false)] ∧
    get_checkbox_fields
      { eligibility := some { is_not_subject_to_orders := some true } } =
      [("not-subject", true)] :=
  ⟨(C9_checkbox_null_false_true _ {}).2.1 rfl rfl,
   (C9_checkbox_null_false_true _ { is_not_subject_to_orders := some false }).2.2.1 rfl rfl,
   (C9_checkbox_null_false_true _ { is_not_subject_to_orders := some true }).2.2.2 rfl rfl⟩

/-- Acceptance of direct text is exactly the 50-character trimmed-length
threshold (a trimmed length of at least 50 forces a non-empty string, so
the truthiness conjunct is redundant). -/
theorem directAccepted_iff (t : String) :
    directAccepted (some t) = decide (50 ≤ (pyStrip t).length) := by
  by_cases h : t = ""
  · subst h
    rfl
  · simp [directAccepted, h]

/-- C8: in the PDF branch of both acquisition functions, the direct
embedded-text result is accepted — and the recognition fallback skipped
entirely — exactly when its trimmed length is at least 50 characters;
otherwise the local-OCR (resp. remote-model) fallback runs. -/
theorem C8_direct_text_threshold :
    ∀ (env : PdfTextEnv) (t : String)
      (imageOcr remoteOcr imageRemote : Option String),
      env.direct = some t →
      (directAccepted (some t) = decide (50 ≤ (pyStrip t).length)) ∧
      (extract_text_from_pdf_or_image ".pdf" env imageOcr =
        if 50 ≤ (pyStrip t).length then some t else ocrAllPages env) ∧
      (extract_passport_text_with_gemini ".pdf" env remoteOcr imageRemote =
        if 50 ≤ (pyStrip t).length then some t else remoteOcr) := by
  intro env t imageOcr remoteOcr imageRemote h
  refine ⟨directAccepted_iff t, ?_, ?_⟩ <;>
    by_cases h50 : 50 ≤ (pyStrip t).length <;>
      simp [extract_text_from_pdf_or_image, extract_passport_text_with_gemini,
        h, directAccepted_iff, h50]

/-- C8 witness: a 49-character trimmed result falls through to the
fallback (local OCR, resp. the remote call) while a 50-character result
is accepted directly, in both functions. -/
theorem C8_direct_text_threshold_witness :
    extract_text_from_pdf_or_image ".pdf"
      ⟨some "1234567890123456789012345678901234567890123456789", 0, fun _ => none⟩
      none = none ∧
    extract_text_from_pdf_or_image ".pdf"
      ⟨some "12345678901234567890123456789012345678901234567890", 0, fun _ => none⟩
      none = some "12345678901234567890123456789012345678901234567890" ∧
    extract_passport_text_with_gemini ".pdf"
      ⟨some "1234567890123456789012345678901234567890123456789", 0, fun _ => none⟩
      (some "remote transcript") none = some "remote transcript" ∧
    extract_passport_text_with_gemini ".pdf"
      ⟨some "12345678901234567890123456789012345678901234567890", 0, fun _ => none⟩
      (some "remote transcript") none =
      some "12345678901234567890123456789012345678901234567890" := by
  refine ⟨?_, ?_, ?_, ?_⟩
  · rw [(C8_direct_text_threshold _
      "1234567890123456789012345678901234567890123456789" none none none rfl).2.1]
    decide
  · rw [(C8_direct_text_threshold _
      "12345678901234567890123456789012345678901234567890" none none none rfl).2.1]
    decide
  · rw [(C8_direct_text_threshold _
      "1234567890123456789012345678901234567890123456789" none
      (some "remote transcript") none rfl).2.2]
    decide
  · rw [(C8_direct_text_threshold _
      "12345678901234567890123456789012345678901234567890" none
      (some "remote transcript") none rfl).2.2]
    decide

/-- C10: `populate_form` is total for every field map and checkbox map:
either some exception was caught and the returned dictionary has
`success = false`, zero filled and zero failed fields, null artifact
paths and a non-null error message; or the run completed, the error slot
is null, `success` holds exactly when at least one field or checkbox was
filled, and `total_filled` counts the filled identifiers (text fields
and checkboxes together). -/
theorem C10_populate_form_total :
    ∀ (headless : Bool) (env : PageEnv)
      (fields : List (String × String)) (checkboxes : List (String × Bool)),
      (∃ m, populate_form headless env fields checkboxes =
        { success := false, total_filled := 0, total_failed := 0,
          filled_fields := [], failed_fields := [],
          screenshot_path := none, pdf_path := none, error := some m }) ∨
      ((populate_form headless env fields checkboxes).error = none ∧
       (populate_form headless env fields checkboxes).success =
         decide (0 < (populate_form headless env fields checkboxes).total_filled) ∧
       (populate_form headless env fields checkboxes).total_filled =
         (populate_form headless env fields checkboxes).filled_fields.length) := by
  intro headless env fields checkboxes
  unfold populate_form
  cases hl : env.launchRaises with
  | some e => exact Or.inl ⟨"Form population failed: " ++ e, rfl⟩
  | none =>
    unfold fill_page
    cases hn : env.navRaises with
    | some e => exact Or.inl ⟨"Form population failed: " ++ e, rfl⟩
    | none =>
      cases hs : env.screenshotRaises with
      | some e => exact Or.inl ⟨"Form population failed: " ++ e, rfl⟩
      | none =>
        cases hp : (if headless then env.pdfRaises else none) with
        | some e => exact Or.inl ⟨"Form population failed: " ++ e, rfl⟩
        | none => exact Or.inr ⟨rfl, rfl, rfl⟩

/-- C1 counterexample: the remote response `{}` parses, lacks both the
`"passport"` and `"g28"` objects, and `extract_data` silently succeeds
with two entirely empty records instead of failing. -/
theorem C1_cex_missing_shape_succeeds :
    extract_data (.ok "\x7b\x7d") = .ok (PassportData.empty, G28Data.empty) := by
  rfl

/-- C1 (amended): `extract_data` fails with the `ExtractionError`
(`ValueError`) on remote-call failure and on a non-parseable response;
but a response that parses to a JSON object missing the `"passport"` and
`"g28"` keys does not fail — `data.get(key, {})` defaults each to an
empty dict and the call returns two all-empty records. -/
theorem C1_extract_data_failure_modes :
    (∀ msg : String, extract_data (.exc msg false) = .error (classify msg)) ∧
    (∀ msg : String, extract_data (.exc msg true) = .error msg) ∧
    (∀ (raw : String) (e : JsonErr),
      pyJsonLoads (preprocessResponse raw) = .error e →
      extract_data (.ok raw) =
        .error ("Gemini API returned invalid JSON format. JSON parsing error: " ++
          jsonErrStr (preprocessResponse raw).toList e)) ∧
    (∀ kvs : List (String × Json),
      dictGet kvs "passport" = none → dictGet kvs "g28" = none →
      processParsed (.obj kvs) = .ok (PassportData.empty, G28Data.empty)) := by
  refine ⟨fun msg => rfl, fun msg => rfl, ?_, ?_⟩
  · intro raw e h
    simp only [extract_data, h]
  · intro kvs h1 h2
    simp only [processParsed, h1, h2]
    rfl

/-- C1 witness: the failure modes evaluated at concrete inputs. -/
theorem C1_extract_data_failure_modes_witness :
    extract_data (.exc "socket timeout" false) = .error (classify "socket timeout") ∧
    extract_data (.exc "a ValueError text" true) = .error "a ValueError text" ∧
    extract_data (.ok "not json") =
      .error ("Gemini API returned invalid JSON format. JSON parsing error: " ++
        jsonErrStr (preprocessResponse "not json").toList ⟨"Expecting value", 0⟩) ∧
    processParsed (.obj [("validation_notes", .null)]) =
      .ok (PassportData.empty, G28Data.empty) :=
  ⟨C1_extract_data_failure_modes.1 "socket timeout",
   C1_extract_data_failure_modes.2.1 "a ValueError text",
   C1_extract_data_failure_modes.2.2.1 "not json" ⟨"Expecting value", 0⟩ (by rfl),
   C1_extract_data_failure_modes.2.2.2 [("validation_notes", .null)] (by rfl) (by rfl)⟩

/-- C2 counterexample: a non-string date value (`true`) in the parsed
response is not degraded to `None` — it reaches pydantic validation,
which rejects it, and the whole extraction call fails. -/
theorem C2_cex_nonstring_date_fails :
    isOkB (extract_data
      (.ok "\x7b\"passport\": \x7b\"date_of_birth\": true\x7d\x7d")) = false := by
  rfl

/-- C2 (amended): for the three passport date fields, a truthy
(non-empty) string value that fails `YYYY-MM-DD` parsing degrades that
single field to absent without failing the call, and a parseable string
becomes the parsed date; but values outside that case (empty strings,
non-strings) are not degraded — they flow into record validation, which
rejects non-date values and fails the whole extraction. -/
theorem C2_bad_date_string_degrades :
    (∀ s1 s2 s3 : String,
      s1 ≠ "" → pyStrptimeYMD s1 = none →
      s2 ≠ "" → pyStrptimeYMD s2 = none →
      s3 ≠ "" → pyStrptimeYMD s3 = none →
      processParsed (.obj [("passport", .obj
        [("date_of_birth", .str s1), ("issue_date", .str s2),
         ("expiry_date", .str s3)])]) =
        .ok (PassportData.empty, G28Data.empty)) ∧
    (∀ (s : String) (d : PyDate),
      pyStrptimeYMD s = some d →
      processParsed (.obj [("passport", .obj [("date_of_birth", .str s)])]) =
        .ok ({ date_of_birth := some d }, G28Data.empty)) ∧
    (∀ b : Bool,
      isOkB (processParsed (.obj [("passport", .obj
        [("date_of_birth", .bool b)])])) = false) := by
  refine ⟨?_, ?_, ?_⟩
  · intro s1 s2 s3 h1 hp1 h2 hp2 h3 hp3
    have hconv : convertPassportDates (jsonFields
        [("date_of_birth", .str s1), ("issue_date", .str s2),
         ("expiry_date", .str s3)]) =
        [("date_of_birth", .json .null), ("issue_date", .json .null),
         ("expiry_date", .json .null)] := by
      simp [convertPassportDates, convertDateField, jsonFields, pvGet, pvSet,
        jsonTruthy, h1, h2, h3, hp1, hp2, hp3, List.find?]
    simp [processParsed, dictGet, List.find?, hconv]
    rfl
  · intro s d hp
    have hne : ¬(s = "") := by
      intro h
      rw [h] at hp
      simp [pyStrptimeYMD] at hp
    have hconv : convertPassportDates (jsonFields [("date_of_birth", .str s)]) =
        [("date_of_birth", .date d)] := by
      simp [convertPassportDates, convertDateField, jsonFields, pvGet, pvSet,
        jsonTruthy, hne, hp, List.find?]
    simp [processParsed, dictGet, List.find?, hconv]
    rfl
  · intro b
    cases b <;> rfl

/-- C2 witness: the degradation evaluated at concrete inputs — three
unparseable truthy strings (wrong format, reversed format, an impossible
calendar date) all degrade to absent, a valid string parses, and a
boolean date value fails the call. -/
theorem C2_bad_date_string_degrades_witness :
    processParsed (.obj [("passport", .obj
      [("date_of_birth", .str "garbage"), ("issue_date", .str "15/01/2030"),
       ("expiry_date", .str "2030-02-29")])]) =
      .ok (PassportData.empty, G28Data.empty) ∧
    processParsed (.obj [("passport", .obj [("date_of_birth", .str "2030-01-15")])]) =
      .ok ({ date_of_birth := some ⟨2030, 1, 15⟩ }, G28Data.empty) ∧
    isOkB (processParsed (.obj [("passport", .obj
      [("date_of_birth", .bool true)])])) = false :=
  ⟨C2_bad_date_string_degrades.1 "garbage" "15/01/2030" "2030-02-29"
      (by decide) (by rfl) (by decide) (by rfl) (by decide) (by rfl),
   C2_bad_date_string_degrades.2.1 "2030-01-15" ⟨2030, 1, 15⟩ (by rfl),
   C2_bad_date_string_degrades.2.2 true⟩

/-- C3 counterexample: on the concrete non-JSON response
`this is not json at all`, the raised message carries the `invalid JSON`
wording and the parser diagnostic but no fragment of the offending
response text (the 500-character excerpt goes to the log only). -/
theorem C3_cex_message_lacks_excerpt :
    extract_data (.ok "this is not json at all") =
      .error "Gemini API returned invalid JSON format. JSON parsing error: Expecting value: line 1 column 1 (char 0)" ∧
    pyIn (pySliceTo "this is not json at all" 500)
      "Gemini API returned invalid JSON format. JSON parsing error: Expecting value: line 1 column 1 (char 0)" = false := by
  constructor
  · rfl
  · rfl

/-- C3 (amended): every non-parseable response raises the
`ExtractionError` whose message contains the `invalid JSON` wording and
the parser's diagnostic; the response-text excerpt is logged, not
embedded in the message. -/
theorem C3_invalid_json_message :
    ∀ (raw : String) (e : JsonErr),
      pyJsonLoads (preprocessResponse raw) = .error e →
      extract_data (.ok raw) =
        .error ("Gemini API returned invalid JSON format. JSON parsing error: " ++
          jsonErrStr (preprocessResponse raw).toList e) ∧
      pyIn "invalid JSON"
        ("Gemini API returned invalid JSON format. JSON parsing error: " ++
          jsonErrStr (preprocessResponse raw).toList e) = true ∧
      pyIn (jsonErrStr (preprocessResponse raw).toList e)
        ("Gemini API returned invalid JSON format. JSON parsing error: " ++
          jsonErrStr (preprocessResponse raw).toList e) = true := by
  intro raw e h
  refine ⟨by simp only [extract_data, h], ?_, ?_⟩
  · have hlit : ("Gemini API returned invalid JSON format. JSON parsing error: " : String) =
        "Gemini API returned " ++ "invalid JSON" ++ " format. JSON parsing error: " := by
      decide
    rw [hlit, String.append_assoc, String.append_assoc]
    exact pyIn_append_mid _ _ _
  · exact pyIn_append_right _ _

/-- C3 witness: the message shape evaluated at a concrete non-parseable
response. -/
theorem C3_invalid_json_message_witness :
    extract_data (.ok "oops") =
      .error ("Gemini API returned invalid JSON format. JSON parsing error: " ++
        jsonErrStr (preprocessResponse "oops").toList ⟨"Expecting value", 0⟩) ∧
    pyIn "invalid JSON"
      ("Gemini API returned invalid JSON format. JSON parsing error: " ++
        jsonErrStr (preprocessResponse "oops").toList ⟨"Expecting value", 0⟩) = true :=
  ⟨(C3_invalid_json_message "oops" ⟨"Expecting value", 0⟩ (by rfl)).1,
   (C3_invalid_json_message "oops" ⟨"Expecting value", 0⟩ (by rfl)).2.1⟩

/-- C4 counterexample: the error text `Invalid api key provided`
contains "api key" in lower case, yet classification yields the generic
wrapped message, not the authentication message — the `"API key"`
pattern is matched case-sensitively. -/
theorem C4_cex_lowercase_api_key_not_auth :
    extract_data (.exc "Invalid api key provided" false) =
      .error "LLM extraction error: Invalid api key provided. Please check your API key and model configuration." ∧
    ("LLM extraction error: Invalid api key provided. Please check your API key and model configuration." : String) ≠
      "Gemini API authentication failed. Please verify your GEMINI_API_KEY in .env file." := by
  constructor
  · rfl
  · decide

/-- C4 (amended): classification of a non-`ValueError` remote exception
is an ordered substring match on the error text: `"API key"`
case-sensitively or `"authentication"` case-insensitively give the
authentication message; otherwise `"quota"` or `"rate limit"`
(case-insensitive) give the quota message; otherwise `"model"`
(case-insensitive) gives the invalid-model message; otherwise the
generic wrapped message. -/
theorem C4_classification_order :
    ∀ msg : String,
      extract_data (.exc msg false) = .error (classify msg) ∧
      ((pyIn "API key" msg = true ∨ pyIn "authentication" (pyLower msg) = true) →
        classify msg =
          "Gemini API authentication failed. Please verify your GEMINI_API_KEY in .env file.") ∧
      (pyIn "API key" msg = false → pyIn "authentication" (pyLower msg) = false →
        (pyIn "quota" (pyLower msg) = true ∨ pyIn "rate limit" (pyLower msg) = true) →
        classify msg =
          "Gemini API quota exceeded or rate limit reached. Please try again later.") ∧
      (pyIn "API key" msg = false → pyIn "authentication" (pyLower msg) = false →
        pyIn "quota" (pyLower msg) = false → pyIn "rate limit" (pyLower msg) = false →
        pyIn "model" (pyLower msg) = true →
        classify msg =
          "Invalid Gemini model name: gemini-1.5-flash. Please check GEMINI_MODEL_NAME in .env file.") ∧
      (pyIn "API key" msg = false → pyIn "authentication" (pyLower msg) = false →
        pyIn "quota" (pyLower msg) = false → pyIn "rate limit" (pyLower msg) = false →
        pyIn "model" (pyLower msg) = false →
        classify msg =
          "LLM extraction error: " ++ msg ++
            ". Please check your API key and model configuration.") := by
  intro msg
  refine ⟨rfl, ?_, ?_, ?_, ?_⟩
  · intro h
    rcases h with h | h <;> simp [classify, h]
  · intro h1 h2 h
    rcases h with h | h <;> simp [classify, h1, h2, h]
  · intro h1 h2 h3 h4 h5
    simp [classify, h1, h2, h3, h4, h5, GEMINI_MODEL_NAME]
  · intro h1 h2 h3 h4 h5
    simp [classify, h1, h2, h3, h4, h5]

/-- C4 witness: the four categories evaluated at concrete error texts. -/
theorem C4_classification_order_witness :
    classify "User location AUTHENTICATION failure" =
      "Gemini API authentication failed. Please verify your GEMINI_API_KEY in .env file." ∧
    classify "Rate Limit reached for requests" =
      "Gemini API quota exceeded or rate limit reached. Please try again later." ∧
    classify "404 model not found" =
      "Invalid Gemini model name: gemini-1.5-flash. Please check GEMINI_MODEL_NAME in .env file." ∧
    classify "socket closed" =
      "LLM extraction error: socket closed. Please check your API key and model configuration." :=
  ⟨(C4_classification_order "User location AUTHENTICATION failure").2.1
      (Or.inr (by rfl)),
   (C4_classification_order "Rate Limit reached for requests").2.2.1
      (by rfl) (by rfl) (Or.inr (by rfl)),
   (C4_classification_order "404 model not found").2.2.2.1
      (by rfl) (by rfl) (by rfl) (by rfl) (by rfl),
   (C4_classification_order "socket closed").2.2.2.2
      (by rfl) (by rfl) (by rfl) (by rfl) (by rfl)⟩

end Alma
